import Mathlib

/-!
Verification of the DuoMotorController firmware (main.c): a shallow embedding
of the sensor-to-actuator control path of a two-motor PI speed regulator.
Machine integers are modelled as natural numbers with explicit reductions
modulo two to the word width where the C arithmetic can wrap; C floats are
idealised as exact rationals.  The PI collaborator (pid.h) is not part of the
sources and is modelled from its stated contract.
-/

set_option autoImplicit false

namespace DuoMotorController

/-! ### Constants (from main.c) -/

/-- F_CPU: the MCU clock frequency, 16 MHz. -/
def F_CPU : ℕ := 16000000

/-- PULSES_PER_ROTATION: Hall encoder pulses per motor rotation. -/
def PULSES_PER_ROTATION : ℕ := 245

/-- RPS_UPPER_DISCARD_LIMIT: maximum believable RPS value. -/
def RPS_UPPER_DISCARD_LIMIT : ℕ := 10

/-- RPS_ALPHA: the coefficient of the exponential moving average filter. -/
def RPS_ALPHA : ℚ := 1/2

/-- SAMPLING_FREQUENCY is 62.5 Hz; SAMPLE_TIME_S its reciprocal. -/
def SAMPLE_TIME_S : ℚ := 1 / (125/2)

/-- command_duration_pids: duration of a command in PID sample periods. -/
def command_duration_pids : ℕ := 2*188

/-- motor_on_rps: setpoint while a command is on. -/
def motor_on_rps : ℚ := 1

/-- UINT32_MAX as used by do_update_rps. -/
def UINT32_MAX : ℕ := 2^32 - 1

/-! ### Data model (from main.c type definitions) -/

/-- The command_e enumeration of main.c. -/
inductive command_e where
  | COMMAND_FORWARD
  | COMMAND_BACKWARD
  | COMMAND_LEFT
  | COMMAND_RIGHT
  | COMMAND_STOP
  | COMMAND_UNKNOWN
deriving DecidableEq, Repr

/-- The hall_encoder_t structure: two latched 32-bit tick snapshots, the
filtered RPS estimate (a C float, idealised as a rational) and the
measurement-ready flag. -/
structure hall_encoder_t where
  timer_value : ℕ
  buffered_timer_value : ℕ
  current_rps : ℚ
  is_measurement_ready : Bool
deriving DecidableEq, Repr

/-- Modelled from the spec: the PI collaborator state (file pid.h is not in
the sources).  Per the contract it holds the gains, the output bounds and the
accumulated (integral/derivative) history, the latter being the only part
reset by PID_ClearAccumulatedValues. -/
structure pid_t where
  kp : ℚ
  td : ℚ
  ti : ℚ
  out_min : ℚ
  out_max : ℚ
  accumulated : ℚ
deriving DecidableEq, Repr

/-- The motor_t structure of main.c. -/
structure motor_t where
  hall_encoder : hall_encoder_t
  pid : pid_t
  setpoint : ℚ
deriving DecidableEq, Repr

/-- The global mutable state of main.c that the control path touches: the two
motors, the scheduler flags, the command buffer and timer, the PWM compare
registers OCR0A/OCR0B and PWM counter TCNT0, the four direction output pins
(motor 1: IN A = PD7, IN B = PB1; motor 2: IN A = PB0, IN B = PB2), and the
16-bit rollover counter extending TIMER1. -/
structure SysState where
  motor1 : motor_t
  motor2 : motor_t
  flag_pid : Bool
  command_timer_pids : ℕ
  flag_command_received : Bool
  command_buffer : ℕ
  flag_command_running : Bool
  OCR0A : ℕ
  OCR0B : ℕ
  TCNT0 : ℕ
  pd7 : Bool
  pb1 : Bool
  pb0 : Bool
  pb2 : Bool
  pulse_tick_counter_high_nibble : ℕ
deriving DecidableEq, Repr

/-! ### PI collaborator, modelled from the spec -/

/-- Modelled from the spec: PID_Init of the PI collaborator contract:
init(kp, kd, ki_period, output_min, output_max) with cleared history. -/
def PID_Init (kp td ti out_min out_max : ℚ) : pid_t :=
  { kp := kp, td := td, ti := ti, out_min := out_min, out_max := out_max,
    accumulated := 0 }

/-- Modelled from the spec: PID_Advance of the PI collaborator contract:
advance(sample_period, error) accumulates integral history and returns an
output clamped to the configured bounds [output_min, output_max]. -/
def PID_Advance (pid : pid_t) (dt err : ℚ) : pid_t × ℚ :=
  let acc := pid.accumulated + err * dt
  let raw := pid.kp * err + (if pid.ti = 0 then 0 else (pid.kp / pid.ti) * acc)
  ({ pid with accumulated := acc }, max pid.out_min (min pid.out_max raw))

/-- Modelled from the spec: PID_ClearAccumulatedValues of the PI collaborator
contract: clearing resets only accumulated (integral/derivative) history, not
gains. -/
def PID_ClearAccumulatedValues (pid : pid_t) : pid_t :=
  { pid with accumulated := 0 }

/-- setup_PID of main.c: both controllers get Kp = 4.0, Td = 0,
Ti = 128.8773, output bounds [0, 95]. -/
def PID_TI : ℚ := 1288773/10000

/-! ### Pure functions of main.c -/

/-- calculate_oc_value_from_dc of main.c: the C expression
(uint8_t)((255 * ((uint32_t)100 - duty_cycle))/100), with the uint32
subtraction and multiplication and the final uint8 cast made explicit as
reductions modulo 2^32 and 2^8 (duty_cycle is a uint32_t argument). -/
def calculate_oc_value_from_dc (duty_cycle : ℕ) : ℕ :=
  (255 * ((2^32 + 100 - duty_cycle % 2^32) % 2^32) % 2^32 / 100) % 2^8

/-- The tick difference computed at the top of do_update_rps of main.c:
if buffered_timer_value > timer_value the code takes
timer_value + (UINT32_MAX - buffered_timer_value), otherwise
timer_value - buffered_timer_value.  For snapshots below 2^32 neither uint32
expression wraps, so plain natural arithmetic is exact. -/
def ticksOf (e : hall_encoder_t) : ℕ :=
  if e.buffered_timer_value > e.timer_value then
    e.timer_value + (UINT32_MAX - e.buffered_timer_value)
  else
    e.timer_value - e.buffered_timer_value

/-- do_update_rps of main.c on a valid (non-null) encoder: computes the tick
difference, returns unchanged if it is below 0.9, otherwise computes
new_rps = F_CPU / (ticks * PULSES_PER_ROTATION) and, when new_rps is below
RPS_UPPER_DISCARD_LIMIT, folds it into current_rps with the EMA
RPS_ALPHA * old + (1 - RPS_ALPHA) * new. -/
def do_update_rps (e : hall_encoder_t) : hall_encoder_t :=
  let ticks : ℚ := (ticksOf e : ℚ)
  if ticks < 9/10 then
    e
  else
    let new_rps : ℚ := (F_CPU : ℚ) / (ticks * (PULSES_PER_ROTATION : ℚ))
    if new_rps < (RPS_UPPER_DISCARD_LIMIT : ℚ) then
      { e with current_rps := RPS_ALPHA * e.current_rps + (1 - RPS_ALPHA) * new_rps }
    else
      e

/-- The local new_rps of do_update_rps in main.c:
F_CPU / (ticks * PULSES_PER_ROTATION). -/
def rawRps (e : hall_encoder_t) : ℚ :=
  (F_CPU : ℚ) / ((ticksOf e : ℚ) * (PULSES_PER_ROTATION : ℚ))

/-- set_motor_direction of main.c: drives the four direction pins
(motor 1: IN A = PD7, IN B = PB1; motor 2: IN A = PB0, IN B = PB2) according
to the decoded command; COMMAND_UNKNOWN leaves them untouched. -/
def set_motor_direction (command : command_e) (s : SysState) : SysState :=
  match command with
  | .COMMAND_FORWARD  => { s with pd7 := true,  pb1 := false, pb0 := false, pb2 := true }
  | .COMMAND_BACKWARD => { s with pd7 := false, pb1 := true,  pb0 := true,  pb2 := false }
  | .COMMAND_LEFT     => { s with pd7 := true,  pb1 := false, pb0 := true,  pb2 := false }
  | .COMMAND_RIGHT    => { s with pd7 := false, pb1 := true,  pb0 := false, pb2 := true }
  | .COMMAND_STOP     => { s with pd7 := false, pb1 := false, pb0 := false, pb2 := false }
  | .COMMAND_UNKNOWN  => s

/-- The switch statement of do_parse_command, applied to the already masked
command buffer: 'w' = 119, 's' = 115, 'a' = 97, 'd' = 100, 'x' = 120. -/
def command_of_masked (b : ℕ) : command_e :=
  if b = 119 then .COMMAND_FORWARD
  else if b = 115 then .COMMAND_BACKWARD
  else if b = 97 then .COMMAND_LEFT
  else if b = 100 then .COMMAND_RIGHT
  else if b = 120 then .COMMAND_STOP
  else .COMMAND_UNKNOWN

/-- do_parse_command of main.c: returns unchanged while a command is running;
otherwise sets both setpoints to motor_on_rps, masks bit 7 off the command
buffer (for the int8_t buffer, the C expression b & 0x7F equals the low seven
bits of the byte, i.e. b mod 128 on the bit pattern), decodes it, drives the
direction pins and raises the running flag. -/
def do_parse_command (s : SysState) : SysState :=
  if s.flag_command_running then
    s
  else
    let buf := s.command_buffer % 128
    let s1 := { s with
      motor1 := { s.motor1 with setpoint := motor_on_rps },
      motor2 := { s.motor2 with setpoint := motor_on_rps },
      command_buffer := buf }
    let s2 := set_motor_direction (command_of_masked buf) s1
    { s2 with flag_command_running := true }

/-- do_on_command_complete of main.c: zeroes both setpoints, forces both PWM
compare registers to 0xFF (0 percent duty under the inverted mapping) and
clears the accumulated state of both PI controllers. -/
def do_on_command_complete (s : SysState) : SysState :=
  let m1 := { s.motor1 with setpoint := (0 : ℚ), pid := PID_ClearAccumulatedValues s.motor1.pid }
  let m2 := { s.motor2 with setpoint := (0 : ℚ), pid := PID_ClearAccumulatedValues s.motor2.pid }
  { s with motor1 := m1, motor2 := m2, OCR0A := 0xFF, OCR0B := 0xFF }

/-- The C cast (uint32_t)input applied to a float PID output, idealised on
rationals: truncation of the nonnegative clamped output. -/
def ratToUint32 (q : ℚ) : ℕ := (⌊q⌋).toNat % 2^32

/-- do_advance_pids of main.c: for each motor computes
error = setpoint - current_rps, advances the PI controller by one sample
period, maps the output through calculate_oc_value_from_dc into the compare
register of the motor (motor 1 drives OCR0B, motor 2 drives OCR0A) and finally
resets the PWM counter TCNT0 to zero. -/
def do_advance_pids (s : SysState) : SysState :=
  let error_1 := s.motor1.setpoint - s.motor1.hall_encoder.current_rps
  let r1 := PID_Advance s.motor1.pid SAMPLE_TIME_S error_1
  let error_2 := s.motor2.setpoint - s.motor2.hall_encoder.current_rps
  let r2 := PID_Advance s.motor2.pid SAMPLE_TIME_S error_2
  { s with
    motor1 := { s.motor1 with pid := r1.1 },
    motor2 := { s.motor2 with pid := r2.1 },
    OCR0B := calculate_oc_value_from_dc (ratToUint32 r1.2),
    OCR0A := calculate_oc_value_from_dc (ratToUint32 r2.2),
    TCNT0 := 0 }

/-! ### Interrupt handlers of main.c -/

/-- hall_encoder_do_save_timer_value of main.c on a valid encoder: buffers the
previous latch, latches TCNT1 (a 16-bit value) extended by the rollover
counter as the high 16 bits (the C bitwise or of disjoint bit ranges is
addition), and raises the measurement-ready flag. -/
def hall_encoder_do_save_timer_value (tcnt1 : ℕ) (high : ℕ)
    (e : hall_encoder_t) : hall_encoder_t :=
  { e with
    buffered_timer_value := e.timer_value,
    timer_value := tcnt1 % 2^16 + (high % 2^16) * 2^16,
    is_measurement_ready := true }

/-- ISR(TIMER1_OVF_vect) of main.c: increments the 16-bit rollover counter. -/
def isr_timer1_ovf (s : SysState) : SysState :=
  { s with pulse_tick_counter_high_nibble :=
      (s.pulse_tick_counter_high_nibble + 1) % 2^16 }

/-- ISR(TIMER2_COMPA_vect) of main.c: increments the 32-bit command duration
timer only while a command is running, and raises the PID-ready flag. -/
def isr_timer2_compa (s : SysState) : SysState :=
  { s with
    command_timer_pids :=
      if s.flag_command_running then (s.command_timer_pids + 1) % 2^32
      else s.command_timer_pids,
    flag_pid := true }

/-- ISR(USART_RX_vect) of main.c: stores the received byte into the
single-slot command buffer and raises the received flag only when the RXC0
hardware flag is set and no command is running; otherwise the byte is read
and discarded. -/
def isr_usart_rx (rxc : Bool) (b : ℕ) (s : SysState) : SysState :=
  if rxc && !s.flag_command_running then
    { s with command_buffer := b % 2^8, flag_command_received := true }
  else
    s

/-- ISR(INT0_vect) of main.c: latches the encoder of motor 1. -/
def isr_int0 (tcnt1 : ℕ) (s : SysState) : SysState :=
  let e := hall_encoder_do_save_timer_value tcnt1 s.pulse_tick_counter_high_nibble s.motor1.hall_encoder
  { s with motor1 := { s.motor1 with hall_encoder := e } }

/-- ISR(INT1_vect) of main.c: latches the encoder of motor 2. -/
def isr_int1 (tcnt1 : ℕ) (s : SysState) : SysState :=
  let e := hall_encoder_do_save_timer_value tcnt1 s.pulse_tick_counter_high_nibble s.motor2.hall_encoder
  { s with motor2 := { s.motor2 with hall_encoder := e } }

/-! ### Scheduler model

The main loop of main.c polls five guarded blocks in a fixed order each
iteration.  Interrupts run to completion and may preempt the main loop
between blocks; we model an execution as a sequence of events, each either
one main-loop block or one interrupt invocation. -/

/-- One block of the main-loop body of main.c, by position:
0 and 1 are the per-motor RPS updates (guarded by is_measurement_ready and
clearing it afterwards), 2 is the PI advance (guarded by flag_pid and
flag_command_running, clearing flag_pid), 3 is the command parse (guarded by
flag_command_received, clearing it), 4 is the command-completion check
(guarded by flag_command_running and the duration having elapsed, then
clearing the running flag and zeroing the duration timer). -/
def main_loop_stage (pc : ℕ) (s : SysState) : SysState :=
  match pc with
  | 0 =>
    if s.motor1.hall_encoder.is_measurement_ready then
      let e := { do_update_rps s.motor1.hall_encoder with is_measurement_ready := false }
      { s with motor1 := { s.motor1 with hall_encoder := e } }
    else s
  | 1 =>
    if s.motor2.hall_encoder.is_measurement_ready then
      let e := { do_update_rps s.motor2.hall_encoder with is_measurement_ready := false }
      { s with motor2 := { s.motor2 with hall_encoder := e } }
    else s
  | 2 =>
    if s.flag_pid && s.flag_command_running then
      { do_advance_pids s with flag_pid := false }
    else s
  | 3 =>
    if s.flag_command_received then
      { do_parse_command s with flag_command_received := false }
    else s
  | 4 =>
    if s.flag_command_running && command_duration_pids ≤ s.command_timer_pids then
      { do_on_command_complete s with flag_command_running := false, command_timer_pids := 0 }
    else s
  | _ => s

/-- A configuration: the position of the main loop within its body, plus the
global state. -/
structure Conf where
  pc : ℕ
  st : SysState
deriving DecidableEq, Repr

/-- One atomic event: either the main loop executes its current block, or one
of the five interrupt handlers fires (with the hardware inputs it reads:
TCNT1 for the encoder captures, the RXC0 flag and data byte for the UART). -/
inductive Event where
  | main
  | tick
  | rx (rxc : Bool) (b : ℕ)
  | enc1 (tcnt1 : ℕ)
  | enc2 (tcnt1 : ℕ)
  | ovf
deriving DecidableEq, Repr

/-- The effect of one event on a configuration. -/
def stepConf (c : Conf) : Event → Conf
  | .main => ⟨(c.pc + 1) % 5, main_loop_stage c.pc c.st⟩
  | .tick => ⟨c.pc, isr_timer2_compa c.st⟩
  | .rx rxc b => ⟨c.pc, isr_usart_rx rxc b c.st⟩
  | .enc1 t => ⟨c.pc, isr_int0 t c.st⟩
  | .enc2 t => ⟨c.pc, isr_int1 t c.st⟩
  | .ovf => ⟨c.pc, isr_timer1_ovf c.st⟩

/-- Run a sequence of events. -/
def run (c : Conf) (evs : List Event) : Conf :=
  evs.foldl stepConf c

/-- The state after the setup code of main(): all globals zero-initialised,
both PI controllers initialised by setup_PID with Kp = 4, Td = 0, Ti = PID_TI
and output bounds [0, 95], and both filtered RPS values set to 0. -/
def initState : SysState :=
  { motor1 := { hall_encoder := ⟨0, 0, 0, false⟩, pid := PID_Init 4 0 PID_TI 0 95, setpoint := 0 },
    motor2 := { hall_encoder := ⟨0, 0, 0, false⟩, pid := PID_Init 4 0 PID_TI 0 95, setpoint := 0 },
    flag_pid := false,
    command_timer_pids := 0,
    flag_command_received := false,
    command_buffer := 0,
    flag_command_running := false,
    OCR0A := 0,
    OCR0B := 0,
    TCNT0 := 0,
    pd7 := false, pb1 := false, pb0 := false, pb2 := false,
    pulse_tick_counter_high_nibble := 0 }

/-- The initial configuration: main loop about to execute its first block. -/
def initConf : Conf := ⟨0, initState⟩

/-- A configuration is reachable when some event sequence produces it from
the initial configuration. -/
def Reachable (c : Conf) : Prop := ∃ evs : List Event, run initConf evs = c

/-- Number of sample-timer interrupts in an event sequence. -/
def countTicks (evs : List Event) : ℕ :=
  (evs.filter (fun e => e = Event.tick)).length

/-! ### Helper lemmas -/

theorem set_motor_direction_flag_running (cmd : command_e) (s : SysState) :
    (set_motor_direction cmd s).flag_command_running = s.flag_command_running := by
  cases cmd <;> rfl

theorem set_motor_direction_timer (cmd : command_e) (s : SysState) :
    (set_motor_direction cmd s).command_timer_pids = s.command_timer_pids := by
  cases cmd <;> rfl

theorem set_motor_direction_setpoint1 (cmd : command_e) (s : SysState) :
    (set_motor_direction cmd s).motor1.setpoint = s.motor1.setpoint := by
  cases cmd <;> rfl

theorem set_motor_direction_setpoint2 (cmd : command_e) (s : SysState) :
    (set_motor_direction cmd s).motor2.setpoint = s.motor2.setpoint := by
  cases cmd <;> rfl

theorem do_parse_command_timer (s : SysState) :
    (do_parse_command s).command_timer_pids = s.command_timer_pids := by
  unfold do_parse_command
  split
  · rfl
  · simp only [set_motor_direction_timer]

theorem do_parse_command_running_true (s : SysState) :
    (do_parse_command s).flag_command_running = true := by
  unfold do_parse_command
  split
  · assumption
  · simp [set_motor_direction_flag_running]

/-- The key datum for the timing claims: whenever the running flag is down,
the command duration timer is zero. -/
def TimerInv (c : Conf) : Prop :=
  c.st.flag_command_running = false → c.st.command_timer_pids = 0

theorem main_loop_stage_timerInv (pc : ℕ) (s : SysState)
    (h : s.flag_command_running = false → s.command_timer_pids = 0) :
    (main_loop_stage pc s).flag_command_running = false →
      (main_loop_stage pc s).command_timer_pids = 0 := by
  rcases pc with _ | _ | _ | _ | _ | pc
  · simp only [main_loop_stage]
    split <;> exact h
  · simp only [main_loop_stage]
    split <;> exact h
  · simp only [main_loop_stage]
    split <;> exact h
  · simp only [main_loop_stage]
    split
    · intro hr
      have hr2 : (do_parse_command s).flag_command_running = false := hr
      rw [do_parse_command_running_true] at hr2
      exact absurd hr2 (by simp)
    · exact h
  · simp only [main_loop_stage]
    split
    · intro _
      rfl
    · exact h
  · exact h

theorem isr_timer2_compa_timer_of_idle (s : SysState) (h : s.flag_command_running = false) :
    (isr_timer2_compa s).command_timer_pids = s.command_timer_pids := by
  unfold isr_timer2_compa
  simp [h]

theorem isr_usart_rx_running (rxc : Bool) (b : ℕ) (s : SysState) :
    (isr_usart_rx rxc b s).flag_command_running = s.flag_command_running := by
  unfold isr_usart_rx
  split <;> rfl

theorem isr_usart_rx_timer (rxc : Bool) (b : ℕ) (s : SysState) :
    (isr_usart_rx rxc b s).command_timer_pids = s.command_timer_pids := by
  unfold isr_usart_rx
  split <;> rfl

theorem timerInv_step (c : Conf) (e : Event) (h : TimerInv c) :
    TimerInv (stepConf c e) := by
  cases e with
  | main =>
    exact main_loop_stage_timerInv c.pc c.st h
  | tick =>
    intro hr
    have hr2 : c.st.flag_command_running = false := hr
    show (isr_timer2_compa c.st).command_timer_pids = 0
    rw [isr_timer2_compa_timer_of_idle c.st hr2]
    exact h hr2
  | rx rxc b =>
    intro hr
    have hr2 : (isr_usart_rx rxc b c.st).flag_command_running = false := hr
    rw [isr_usart_rx_running] at hr2
    show (isr_usart_rx rxc b c.st).command_timer_pids = 0
    rw [isr_usart_rx_timer]
    exact h hr2
  | enc1 t =>
    exact h
  | enc2 t =>
    exact h
  | ovf =>
    exact h

theorem timerInv_run (evs : List Event) : ∀ c : Conf, TimerInv c → TimerInv (run c evs) := by
  induction evs with
  | nil =>
    intro c h
    exact h
  | cons e evs ih =>
    intro c h
    exact ih (stepConf c e) (timerInv_step c e h)

theorem reachable_timerInv (c : Conf) (h : Reachable c) : TimerInv c := by
  obtain ⟨evs, rfl⟩ := h
  exact timerInv_run evs initConf (by intro _; rfl)

theorem main_loop_stage_timer_le (pc : ℕ) (s : SysState) :
    (main_loop_stage pc s).command_timer_pids ≤ s.command_timer_pids := by
  rcases pc with _ | _ | _ | _ | _ | pc
  · simp only [main_loop_stage]
    split <;> rfl
  · simp only [main_loop_stage]
    split <;> rfl
  · simp only [main_loop_stage]
    split <;> rfl
  · simp only [main_loop_stage]
    split
    · have heq : (do_parse_command s).command_timer_pids = s.command_timer_pids :=
        do_parse_command_timer s
      exact le_of_eq heq
    · rfl
  · simp only [main_loop_stage]
    split
    · exact Nat.zero_le _
    · rfl
  · exact le_refl _

theorem countTicks_cons (e : Event) (evs : List Event) :
    countTicks (e :: evs) = (if e = Event.tick then 1 else 0) + countTicks evs := by
  unfold countTicks
  rcases e <;> simp [List.filter, Nat.add_comm]

theorem timer_le_step (c : Conf) (e : Event) :
    (stepConf c e).st.command_timer_pids ≤
      c.st.command_timer_pids + (if e = Event.tick then 1 else 0) := by
  cases e with
  | main =>
    simpa [stepConf] using main_loop_stage_timer_le c.pc c.st
  | tick =>
    have hgoal : (isr_timer2_compa c.st).command_timer_pids ≤ c.st.command_timer_pids + 1 := by
      show (if c.st.flag_command_running = true then (c.st.command_timer_pids + 1) % 2^32
            else c.st.command_timer_pids) ≤ c.st.command_timer_pids + 1
      split
      · exact Nat.mod_le _ _
      · exact Nat.le_succ _
    simpa [stepConf] using hgoal
  | rx rxc b =>
    have hgoal : (isr_usart_rx rxc b c.st).command_timer_pids ≤ c.st.command_timer_pids :=
      le_of_eq (isr_usart_rx_timer rxc b c.st)
    simpa [stepConf] using hgoal
  | enc1 t =>
    simp [stepConf, isr_int0]
  | enc2 t =>
    simp [stepConf, isr_int1]
  | ovf =>
    simp [stepConf, isr_timer1_ovf]

theorem timer_le_run (evs : List Event) :
    ∀ c : Conf, (run c evs).st.command_timer_pids ≤ c.st.command_timer_pids + countTicks evs := by
  induction evs with
  | nil =>
    intro c
    simp [run, countTicks]
  | cons e evs ih =>
    intro c
    have h1 := ih (stepConf c e)
    have h2 := timer_le_step c e
    have h3 : run c (e :: evs) = run (stepConf c e) evs := rfl
    rw [h3, countTicks_cons]
    omega

/-! ### Claim theorems -/

/-- C1: when a command is Running and the elapsed sample count has reached
command_duration_pids (= 376), the completion block of the main loop returns
the state machine to Idle and, on that transition, zeroes both setpoints,
forces both PWM compare registers OCR0A and OCR0B to the fully-off extreme
0xFF, clears the accumulated state of both PI controllers, and zeroes the elapsed
sample counter. -/
theorem C1_command_completion (s : SysState)
    (hrun : s.flag_command_running = true)
    (htimer : command_duration_pids ≤ s.command_timer_pids) :
    command_duration_pids = 376 ∧
    (main_loop_stage 4 s).flag_command_running = false ∧
    (main_loop_stage 4 s).command_timer_pids = 0 ∧
    (main_loop_stage 4 s).motor1.setpoint = 0 ∧
    (main_loop_stage 4 s).motor2.setpoint = 0 ∧
    (main_loop_stage 4 s).OCR0A = 0xFF ∧
    (main_loop_stage 4 s).OCR0B = 0xFF ∧
    (main_loop_stage 4 s).motor1.pid.accumulated = 0 ∧
    (main_loop_stage 4 s).motor2.pid.accumulated = 0 := by
  refine ⟨by decide, ?_⟩
  simp [main_loop_stage, hrun, htimer, do_on_command_complete, PID_ClearAccumulatedValues]

/-- Witness for C1 at a concrete Running state whose timer has elapsed. -/
theorem C1_command_completion_witness :
    (main_loop_stage 4 { initState with flag_command_running := true, command_timer_pids := 376 }).OCR0A = 0xFF :=
  (C1_command_completion { initState with flag_command_running := true, command_timer_pids := 376 }
    rfl (by decide)).2.2.2.2.2.1

/-- C2 counterexample: for the snapshots buffered = 2^32 - 10, raw = 5 (one
wrap of the extended counter), the tick interval the code computes is 14,
not the claimed raw + (2^32 - buffered) = 15, because the source adds
UINT32_MAX = 2^32 - 1, not 2^32. -/
theorem C2_wraparound_counterexample :
    ticksOf { timer_value := 5, buffered_timer_value := 4294967286,
              current_rps := 0, is_measurement_ready := false } ≠
      5 + (2^32 - 4294967286) := by
  decide

/-- C2 amended: across one wrap the tick interval equals
timer_value + (2^32 - 1 - buffered_timer_value); without a wrap it equals
timer_value - buffered_timer_value. -/
theorem C2_wraparound_tick_difference (e : hall_encoder_t)
    (h1 : e.timer_value < 2^32) (h2 : e.buffered_timer_value < 2^32) :
    (e.timer_value < e.buffered_timer_value →
      ticksOf e = e.timer_value + (2^32 - 1 - e.buffered_timer_value)) ∧
    (e.buffered_timer_value ≤ e.timer_value →
      ticksOf e = e.timer_value - e.buffered_timer_value) := by
  unfold ticksOf UINT32_MAX
  constructor <;> intro hcmp <;> split <;> omega

/-- Witness for C2 amended at the concrete one-wrap snapshot pair. -/
theorem C2_wraparound_tick_difference_witness :
    ticksOf { timer_value := 5, buffered_timer_value := 4294967286,
              current_rps := 0, is_measurement_ready := false } =
      5 + (2^32 - 1 - 4294967286) :=
  (C2_wraparound_tick_difference
    { timer_value := 5, buffered_timer_value := 4294967286,
      current_rps := 0, is_measurement_ready := false }
    (by decide) (by decide)).1 (by decide)

/-- C4 counterexample: starting from reset, receive a forward command and let
the scheduler parse it (state machine Running); a byte that then arrives over
the serial link is not accepted into the single-slot command buffer — the
receive interrupt discards it, the buffer still holds the old byte and the
received flag stays down. -/
theorem C4_collision_counterexample :
    (run initConf [Event.rx true 119, Event.main, Event.main, Event.main, Event.main]).st.flag_command_running = true ∧
    (stepConf (run initConf [Event.rx true 119, Event.main, Event.main, Event.main, Event.main])
      (Event.rx true 115)).st.command_buffer = 119 ∧
    (stepConf (run initConf [Event.rx true 119, Event.main, Event.main, Event.main, Event.main])
      (Event.rx true 115)).st.flag_command_received = false := by
  decide

/-- C4 amended: a command byte arriving over the serial link while the state
machine is Running is silently discarded by the receive interrupt: the whole
state, the single-slot command buffer included, is left unchanged, and the
byte is never executed. -/
theorem C4_byte_while_running_dropped (s : SysState) (rxc : Bool) (b : ℕ)
    (h : s.flag_command_running = true) :
    isr_usart_rx rxc b s = s := by
  simp [isr_usart_rx, h]

/-- Witness for C4 amended at a concrete Running state. -/
theorem C4_byte_while_running_dropped_witness :
    isr_usart_rx true 115 { initState with flag_command_running := true } =
      { initState with flag_command_running := true } :=
  C4_byte_while_running_dropped { initState with flag_command_running := true } true 115 rfl

/-- C6 counterexample: at duty = 50 the code computes compare = 127 by
truncating integer division, while round(255 * (100 - 50) / 100) =
round(127.5) = 128. -/
theorem C6_round_counterexample :
    (calculate_oc_value_from_dc 50 : ℤ) ≠ round ((255 * (100 - 50) : ℚ) / 100) := by
  have h1 : calculate_oc_value_from_dc 50 = 127 := by decide
  have h2 : round ((255 * (100 - 50) : ℚ) / 100) = 128 := by
    have hq : ((255 * (100 - 50) : ℚ) / 100) = 255/2 := by norm_num
    rw [hq, round_eq]
    norm_num
  rw [h1, h2]
  decide

/-- C6 amended: for every duty in [0, 100], calculate_oc_value_from_dc duty
equals the floor (truncating integer division) of 255 * (100 - duty) / 100;
in particular duty 0 yields 255, duty 100 yields 0, and duty 50 yields 127,
approximately half the maximum compare value. -/
theorem C6_duty_to_compare (duty : ℕ) (h : duty ≤ 100) :
    calculate_oc_value_from_dc duty = 255 * (100 - duty) / 100 ∧
    calculate_oc_value_from_dc 0 = 255 ∧
    calculate_oc_value_from_dc 100 = 0 ∧
    calculate_oc_value_from_dc 50 = 127 := by
  refine ⟨?_, by decide, by decide, by decide⟩
  unfold calculate_oc_value_from_dc
  have e1 : duty % 2^32 = duty := Nat.mod_eq_of_lt (by omega)
  rw [e1]
  have e2 : (2^32 + 100 - duty) % 2^32 = 100 - duty := by omega
  rw [e2]
  have e3 : 255 * (100 - duty) % 2^32 = 255 * (100 - duty) := by omega
  rw [e3]
  have e4 : 255 * (100 - duty) ≤ 25500 := by omega
  omega

/-- Witness for C6 amended at duty = 50. -/
theorem C6_duty_to_compare_witness :
    calculate_oc_value_from_dc 50 = 255 * (100 - 50) / 100 :=
  (C6_duty_to_compare 50 (by decide)).1

/-- C7: the command parser classifies a received byte identically to the byte
with bit 7 cleared: parsing a buffer holding b produces the same state as
parsing a buffer holding b mod 128 (the low seven bits of the int8_t buffer),
and in particular the masked byte 0xF7 decodes to forward exactly like
0x77 = w. -/
theorem C7_bit7_masking (s : SysState) (b : ℕ) (hb : b < 256)
    (h : s.flag_command_running = false) :
    do_parse_command { s with command_buffer := b } =
      do_parse_command { s with command_buffer := b % 128 } ∧
    command_of_masked (0xF7 % 128) = command_e.COMMAND_FORWARD ∧
    command_of_masked (0x77 % 128) = command_e.COMMAND_FORWARD := by
  refine ⟨?_, by decide, by decide⟩
  unfold do_parse_command
  simp [h, Nat.mod_mod_of_dvd]

/-- Witness for C7 at the concrete byte 0xF7 from the Idle reset state. -/
theorem C7_bit7_masking_witness :
    do_parse_command { initState with command_buffer := 0xF7 } =
      do_parse_command { initState with command_buffer := 0xF7 % 128 } :=
  (C7_bit7_masking initState 0xF7 (by decide) rfl).1

/-- C8: while the command-running flag is false the PI advance block of the
main loop does nothing at all, and the sample-timer interrupt itself never
touches the PWM compare registers or the running flag, so a sample tick
arriving while Idle causes no control output change. -/
theorem C8_control_paused_while_idle (s : SysState)
    (h : s.flag_command_running = false) :
    main_loop_stage 2 s = s ∧
    (isr_timer2_compa s).OCR0A = s.OCR0A ∧
    (isr_timer2_compa s).OCR0B = s.OCR0B ∧
    (isr_timer2_compa s).flag_command_running = s.flag_command_running := by
  refine ⟨?_, rfl, rfl, rfl⟩
  simp [main_loop_stage, h]

/-- Witness for C8 at the Idle reset state. -/
theorem C8_control_paused_while_idle_witness :
    main_loop_stage 2 initState = initState :=
  (C8_control_paused_while_idle initState rfl).1

/-- C9: do_parse_command sets the setpoints of both motors to motor_on_rps = 1
before decoding the byte, for every command byte; a stop command
(masked byte x = 120) therefore starts a timed run regulated toward 1 RPS,
distinguished only by its direction outputs: all four direction pins
cleared. -/
theorem C9_stop_is_timed_on_speed_run (s : SysState)
    (h : s.flag_command_running = false) :
    (do_parse_command s).motor1.setpoint = motor_on_rps ∧
    (do_parse_command s).motor2.setpoint = motor_on_rps ∧
    motor_on_rps = 1 ∧
    (do_parse_command s).flag_command_running = true ∧
    (s.command_buffer % 128 = 120 →
      (do_parse_command s).pd7 = false ∧ (do_parse_command s).pb1 = false ∧
      (do_parse_command s).pb0 = false ∧ (do_parse_command s).pb2 = false) := by
  have hsp1 : (do_parse_command s).motor1.setpoint = motor_on_rps := by
    simp [do_parse_command, h, set_motor_direction_setpoint1]
  have hsp2 : (do_parse_command s).motor2.setpoint = motor_on_rps := by
    simp [do_parse_command, h, set_motor_direction_setpoint2]
  refine ⟨hsp1, hsp2, rfl, do_parse_command_running_true s, ?_⟩
  intro hbuf
  simp [do_parse_command, h, hbuf, command_of_masked, set_motor_direction]

/-- Witness for C9 at a concrete Idle state holding the stop byte. -/
theorem C9_stop_is_timed_on_speed_run_witness :
    (do_parse_command { initState with command_buffer := 120 }).motor1.setpoint = motor_on_rps :=
  (C9_stop_is_timed_on_speed_run { initState with command_buffer := 120 } rfl).1

/-- C5: on each invocation of do_update_rps on a valid encoder, a tick
interval below 0.9 makes the reading be discarded with no encoder state
change; a raw RPS estimate exceeding the upper discard bound 10 is discarded
with the previous filtered value retained; otherwise the filtered value is
updated exactly by the EMA new = (1/2) old + (1/2) raw, where the raw
estimate is 16000000 / (ticks * 245). -/
theorem C5_rps_estimator (e : hall_encoder_t) :
    ((ticksOf e : ℚ) < 9/10 → do_update_rps e = e) ∧
    (9/10 ≤ (ticksOf e : ℚ) → 10 < rawRps e → do_update_rps e = e) ∧
    (9/10 ≤ (ticksOf e : ℚ) → rawRps e ≤ 10 →
      do_update_rps e = { e with current_rps :=
        (1/2) * e.current_rps + (1/2) * rawRps e }) ∧
    rawRps e = (16000000 : ℚ) / ((ticksOf e : ℚ) * 245) := by
  have hdef : do_update_rps e =
      if (ticksOf e : ℚ) < 9/10 then e
      else if rawRps e < (RPS_UPPER_DISCARD_LIMIT : ℚ) then
        { e with current_rps := RPS_ALPHA * e.current_rps + (1 - RPS_ALPHA) * rawRps e }
      else e := rfl
  have h10 : (RPS_UPPER_DISCARD_LIMIT : ℚ) = 10 := by
    norm_num [RPS_UPPER_DISCARD_LIMIT]
  refine ⟨?_, ?_, ?_, ?_⟩
  · intro hlt
    rw [hdef, if_pos hlt]
  · intro hge hbig
    rw [hdef, if_neg (not_lt.mpr hge), if_neg]
    rw [h10]
    exact not_lt.mpr (le_of_lt hbig)
  · intro hge hle
    have ht1 : 1 ≤ ticksOf e := by
      rcases Nat.eq_zero_or_pos (ticksOf e) with h0 | h0
      · rw [h0] at hge
        norm_num at hge
      · exact h0
    have hraw : rawRps e = (16000000 : ℚ) / ((ticksOf e : ℚ) * 245) := by
      norm_num [rawRps, F_CPU, PULSES_PER_ROTATION]
    have hne : rawRps e ≠ 10 := by
      intro heq
      have ht0 : ((ticksOf e : ℚ) * 245) ≠ 0 := by
        have hp : (0:ℚ) < (ticksOf e : ℚ) := by exact_mod_cast ht1
        positivity
      rw [hraw, div_eq_iff ht0] at heq
      have hn : (16000000 : ℕ) = 10 * (ticksOf e * 245) := by exact_mod_cast heq
      omega
    have hlt : rawRps e < (RPS_UPPER_DISCARD_LIMIT : ℚ) := by
      rw [h10]
      exact lt_of_le_of_ne hle hne
    rw [hdef, if_neg (not_lt.mpr hge), if_pos hlt]
    have halpha : RPS_ALPHA = (1/2 : ℚ) := rfl
    rw [halpha]
    norm_num
  · norm_num [rawRps, F_CPU, PULSES_PER_ROTATION]

/-- Witness for C5: at snapshots 1000 ticks apart the raw estimate 65.3
exceeds the bound and the encoder state is retained unchanged. -/
theorem C5_rps_estimator_witness :
    do_update_rps { timer_value := 1000, buffered_timer_value := 0,
                    current_rps := 0, is_measurement_ready := false } =
      { timer_value := 1000, buffered_timer_value := 0,
        current_rps := 0, is_measurement_ready := false } :=
  (C5_rps_estimator _).2.1 (by norm_num [ticksOf]) (by norm_num [rawRps, ticksOf, F_CPU, PULSES_PER_ROTATION])

/-- C3: at every reachable configuration about to execute the command-parse
block with a pending command and the state machine Idle, executing that block
transitions to Running with the elapsed sample counter equal to 0, and from
there no completion condition can be met until at least
command_duration_pids sample-timer interrupts have fired — in particular the
completion check of the same scheduler iteration, with no intervening sample
interrupt, never fires, and every command runs the full duration. -/
theorem C3_command_duration_start (c : Conf) (hr : Reachable c)
    (hpc : c.pc = 3) (hrecv : c.st.flag_command_received = true)
    (hrun : c.st.flag_command_running = false) (evs : List Event) :
    (stepConf c Event.main).st.flag_command_running = true ∧
    (stepConf c Event.main).st.command_timer_pids = 0 ∧
    (countTicks evs < command_duration_pids →
      ¬ command_duration_pids ≤ (run (stepConf c Event.main) evs).st.command_timer_pids) := by
  have h0 : c.st.command_timer_pids = 0 := reachable_timerInv c hr hrun
  have hstep : stepConf c Event.main = ⟨4, main_loop_stage 3 c.st⟩ := by
    simp [stepConf, hpc]
  have hstage : main_loop_stage 3 c.st = { do_parse_command c.st with flag_command_received := false } := by
    simp [main_loop_stage, hrecv]
  have hrun1 : (stepConf c Event.main).st.flag_command_running = true := by
    rw [hstep]
    show (main_loop_stage 3 c.st).flag_command_running = true
    rw [hstage]
    show (do_parse_command c.st).flag_command_running = true
    exact do_parse_command_running_true c.st
  have htim1 : (stepConf c Event.main).st.command_timer_pids = 0 := by
    rw [hstep]
    show (main_loop_stage 3 c.st).command_timer_pids = 0
    rw [hstage]
    show (do_parse_command c.st).command_timer_pids = 0
    rw [do_parse_command_timer]
    exact h0
  refine ⟨hrun1, htim1, ?_⟩
  intro hlt hge
  have hb := timer_le_run evs (stepConf c Event.main)
  rw [htim1] at hb
  omega

/-- Witness for C3: from reset, receive the forward byte and run the first
three main-loop blocks; the parse block then starts the command with the
elapsed counter at 0. -/
theorem C3_command_duration_start_witness :
    (stepConf (run initConf [Event.rx true 119, Event.main, Event.main, Event.main]) Event.main).st.command_timer_pids = 0 :=
  (C3_command_duration_start (run initConf [Event.rx true 119, Event.main, Event.main, Event.main])
    ⟨[Event.rx true 119, Event.main, Event.main, Event.main], rfl⟩
    (by decide) (by decide) (by decide) []).2.1

/-- C10: in every reachable configuration at a scheduler-iteration boundary,
if the command-running flag is false then the elapsed sample counter is
zero. -/
theorem C10_idle_implies_timer_zero (c : Conf) (hr : Reachable c)
    (hpc : c.pc = 0) (hrun : c.st.flag_command_running = false) :
    c.st.command_timer_pids = 0 :=
  reachable_timerInv c hr hrun

/-- Witness for C10 at the initial configuration. -/
theorem C10_idle_implies_timer_zero_witness :
    initConf.st.command_timer_pids = 0 :=
  C10_idle_implies_timer_zero initConf ⟨[], rfl⟩ rfl rfl

end DuoMotorController
